import Mathlib

/-!
Verification of the provider-client authentication-and-registry subsystem of
the Astral-AI repository, shallowly embedded in Lean 4.

Embedding conventions, shared by all definitions below:
* Python exceptions become values of the inductive type `PyErr`; raising is
  `Except.error`, a normal return is `Except.ok`.
* Native provider client handles (opaque SDK objects) are modelled as `Nat`,
  with Python truthiness `if client:` rendered as `≠ 0` (`0` plays the role of
  `None` / a falsy handle).
* Python `dict`s become association lists in insertion order; the dict
  invariant "keys are unique" appears as explicit `Nodup` hypotheses where a
  theorem needs it.
* Object identity (reference equality) is modelled by tagging each constructed
  instance with a fresh natural number drawn from a counter threaded through
  the state; equal tags mean the same object, and an unchanged counter means
  no construction happened.
* The process-local string hash `hash(...)` used for cache keys is a parameter
  `hashFn : String → Int`: it is fixed within one run, which is all the code
  relies on.
* The `auth_error_handler` decorator on `_get_or_authenticate_client` lives in
  `astral_ai.errors.error_decorators`, which is not part of this tree; it is
  modelled from the spec as a pass-through that re-raises the errors of
  interest unchanged (spec §7: configuration errors are "surfaced immediately"
  and single-strategy failures "propagated unchanged").
-/

namespace AstralAI

/-- Model of the Python exceptions this subsystem raises or re-raises.
`exc` stands for an arbitrary exception raised inside an auth strategy;
the remaining constructors carry exactly the keyword arguments the source
passes at the corresponding `raise` sites. -/
inductive PyErr : Type where
  | exc : Nat → PyErr
  | astralUnknownAuthMethodError :
      (authMethodName : String) → (providerName : String) →
      (supportedMethods : List String) → PyErr
  | multipleAstralAuthenticationErrors :
      (providerName : String) → (errors : List (String × PyErr)) → PyErr
  | providerNotSupportedError : (providerName : String) → PyErr
  | valueError : (msg : String) → PyErr
  | typeError : (msg : String) → PyErr

/-- Outcome of one full run of `_get_or_authenticate_client`
(`src/astral_ai/providers/_base_client.py`): the returned handle or raised
error, the names of the strategies actually invoked in order, and the
`errors` list of `(name, error)` pairs as it stands when the run ends. -/
structure AuthAttempt where
  result : Except PyErr Nat
  attempted : List String
  recorded : List (String × PyErr)

/-- Loop body of `_get_or_authenticate_client` lines 259-282: iterate
`methods_to_try`, each strategy modelled by its (fixed) outcome on
`(self, config, env)`; a truthy handle returns immediately; an exception is
appended to `errors` and re-raised at once when `len(methods_to_try) == 1`
(`isSingle`); an exhausted loop raises the consolidated
`MultipleAstralAuthenticationErrors` carrying `errors`. -/
def runCandidates (provider : String) (isSingle : Bool) :
    List (String × Except PyErr Nat) → List (String × PyErr) → AuthAttempt
  | [], errors =>
      ⟨.error (.multipleAstralAuthenticationErrors provider errors), [], errors⟩
  | (name, outcome) :: rest, errors =>
      match outcome with
      | .ok client =>
          if client ≠ 0 then ⟨.ok client, [name], errors⟩
          else
            let r := runCandidates provider isSingle rest errors
            ⟨r.result, name :: r.attempted, r.recorded⟩
      | .error e =>
          let errors' := errors ++ [(name, e)]
          if isSingle then ⟨.error e, [name], errors'⟩
          else
            let r := runCandidates provider isSingle rest errors'
            ⟨r.result, name :: r.attempted, r.recorded⟩

/-- Model of `BaseProviderClient._get_or_authenticate_client`
(`_base_client.py` lines 229-282).  `strategies` is the class's
`_auth_strategies` table in registration order; `authMethodConfig` is
`self._config.get("auth_method").auth_method` when a method is pinned.
A pinned name absent from the table raises `AstralUnknownAuthMethodError`
before any strategy runs; a pinned present name yields a one-element
candidate list; otherwise all strategies are tried in order. -/
def getOrAuthenticateClient (provider : String)
    (strategies : List (String × Except PyErr Nat))
    (authMethodConfig : Option String) : AuthAttempt :=
  let supportedMethods := strategies.map Prod.fst
  match authMethodConfig with
  | some name =>
      match strategies.lookup name with
      | none =>
          ⟨.error (.astralUnknownAuthMethodError name provider supportedMethods),
           [], []⟩
      | some outcome => runCandidates provider true [(name, outcome)] []
  | none => runCandidates provider (strategies.length == 1) strategies []

/-- Pairs `(name, error)` of exactly those candidates whose strategy raised,
in order; candidates returning a falsy handle contribute nothing. -/
def collectErrors (candidates : List (String × Except PyErr Nat)) :
    List (String × PyErr) :=
  candidates.filterMap fun p =>
    match p.2 with
    | .error e => some (p.1, e)
    | .ok _ => none

/-- Comparison on config entries by key, modelling `sort_keys=True` in
`json.dumps(..., sort_keys=True)` (`_client_registry.py` line 62). -/
def keyLe (a b : String × String) : Prop := a.1 ≤ b.1

/-- Strict version of `keyLe`, used to show the canonical order is unique
when the keys are pairwise distinct. -/
def keyLt (a b : String × String) : Prop := a.1 < b.1

instance : DecidableRel keyLe := fun a b =>
  inferInstanceAs (Decidable (a.1 ≤ b.1))

instance : IsTotal (String × String) keyLe :=
  ⟨fun a b => le_total a.1 b.1⟩

instance : IsTrans (String × String) keyLe :=
  ⟨fun _ _ _ h₁ h₂ => le_trans h₁ h₂⟩

instance : IsAntisymm (String × String) keyLt :=
  ⟨fun _ _ h₁ h₂ => absurd h₂ (lt_asymm h₁)⟩

/-- Stable key ordering of a config dict before serialization. -/
def sortByKey (cfg : List (String × String)) : List (String × String) :=
  List.insertionSort keyLe cfg

/-- JSON rendering of one string. -/
def jsonStr (s : String) : String := "\"" ++ s ++ "\""

/-- Model of `json.dumps({k: v.model_dump() for k, v in config.items()},
sort_keys=True)`: the entries sorted by key, rendered as a JSON object
(values are taken as already-serialized strings). -/
def canonicalConfigString (cfg : List (String × String)) : String :=
  "\x7b" ++ String.intercalate ", "
      ((sortByKey cfg).map fun p => jsonStr p.1 ++ ": " ++ jsonStr p.2) ++
    "\x7d"

/-- Model of `ProviderClientRegistry._generate_registry_key`
(`_client_registry.py` lines 40-69).  A truthy `client_key` is the base key
verbatim; else a supplied config contributes `provider + "_" + hash` of its
canonical serialization; else the bare provider name; `".async"` is appended
exactly when the async variant is requested.  `hashFn` is the process-local
`hash`. -/
def generateRegistryKey (hashFn : String → Int) (providerName : String)
    (config : Option (List (String × String))) (clientKey : Option String)
    (asyncClient : Bool) : String :=
  let baseKey :=
    if clientKey.getD "" ≠ "" then clientKey.getD ""
    else
      match config with
      | some cfg =>
          providerName ++ "_" ++ toString (hashFn (canonicalConfigString cfg))
      | none => providerName
  if asyncClient then baseKey ++ ".async" else baseKey

/-- Concrete stand-in for the process-local `hash`, used in witnesses. -/
def hashLen (s : String) : Int := s.length

/-- Model of `AstralClientParams` as consumed by
`ProviderClientRegistry.get_client`. -/
structure AstralClientParams where
  new_client : Bool
  client_key : Option String
  client_config : Option (List (String × String))

/-- Keys of `_PROVIDER_CLIENT_MAP` (`_client_registry.py` lines 20-24). -/
def providerClientMap : List String := ["openai", "anthropic", "deepseek"]

/-- State of `ProviderClientRegistry`: the `_client_registry` dict mapping
keys to client instances (instances tagged by identity numbers), plus the
counter producing a fresh identity per construction. -/
structure RegistryState where
  registry : List (String × Nat)
  nextId : Nat

/-- Python dict assignment `d[k] = v` on an association list: replace the
entry for `k` if present, else append. -/
def listSet (l : List (String × Nat)) (k : String) (v : Nat) :
    List (String × Nat) :=
  match l with
  | [] => [(k, v)]
  | (k', v') :: rest =>
      if k' = k then (k, v) :: rest else (k', v') :: listSet rest k v

/-- Key-derivation prelude of `get_client` (`_client_registry.py` lines
122-138): no params derive the provider's default key; `new_client = True`
demands a truthy `client_key` (else `ValueError`) and ignores the config;
otherwise the key comes from `(provider, client_config, client_key)`. -/
def deriveGetClientKey (hashFn : String → Int) (provider : String)
    (astral : Option AstralClientParams) (asyncClient : Bool) :
    Except PyErr String :=
  match astral with
  | none => .ok (generateRegistryKey hashFn provider none none asyncClient)
  | some a =>
      if a.new_client then
        if a.client_key.getD "" ≠ "" then
          .ok (generateRegistryKey hashFn provider none a.client_key
            asyncClient)
        else
          .error (.valueError
            "When new_client is True, you must provide a unique client_key.")
      else
        .ok (generateRegistryKey hashFn provider a.client_config a.client_key
          asyncClient)

/-- Exception raised by the constructing call
`client_class(astral_client.client_config if astral_client else None,
async_client=async_client)` (`_client_registry.py` lines 145-148) for the
one provider class whose constructor is in this tree:
`DeepSeekProviderClient.__init__` (`deepseek/_client.py` line 66) accepts
only `config` — no `async_client` keyword and no `**kwargs` (nor does
`BaseProviderClient.__init__`, `_base_client.py` line 161) — so Python
raises `TypeError` at the call, before any construction work runs. -/
def deepseekCtorTypeError : PyErr :=
  .typeError
    "DeepSeekProviderClient.__init__ got an unexpected keyword argument async_client"

/-- Modelled from the spec: the constructors of `OpenAIProviderClient` and
`AnthropicProviderClient` are not under src (only this registry calls
them); per spec §4.4 the constructor runs the full authentication engine
and either yields a client or propagates the failure.  Theorems take the
per-provider outcome as a parameter `ctorOutcome`; this concrete outcome —
authentication succeeds — instantiates it in closed statements. -/
def ctorAuthOk : String → Except PyErr Unit := fun _ => Except.ok ()

/-- Model of `ProviderClientRegistry.get_client` (`_client_registry.py`
lines 101-149): derive the key; under the lock, a cached entry is returned
as-is; otherwise an unsupported provider raises
`ProviderNotSupportedError`, and a supported one is constructed by
`client_class(config, async_client=async_client)`.  For `"deepseek"` that
call always raises `deepseekCtorTypeError` (the in-src constructor takes no
such keyword); for the other providers the constructor is absent from src
and its outcome is the spec-modelled parameter `ctorOutcome`.  A raise
propagates with the registry map untouched (the caller keeps `st`); a
successful construction yields the fresh identity `st.nextId`, which is
stored unconditionally in `_client_registry` and returned. -/
def get_client (hashFn : String → Int)
    (ctorOutcome : String → Except PyErr Unit) (provider : String)
    (astral : Option AstralClientParams) (asyncClient : Bool)
    (st : RegistryState) : Except PyErr (Nat × RegistryState) :=
  match deriveGetClientKey hashFn provider astral asyncClient with
  | .error e => .error e
  | .ok key =>
      match st.registry.lookup key with
      | some c => .ok (c, st)
      | none =>
          if provider ∈ providerClientMap then
            match (if provider = "deepseek" then Except.error deepseekCtorTypeError
                   else ctorOutcome provider) with
            | .error e => .error e
            | .ok _ =>
                .ok (st.nextId,
                  ⟨listSet st.registry key st.nextId, st.nextId + 1⟩)
          else .error (.providerNotSupportedError provider)

/-- Model of `ProviderClientRegistry.register_client` (`_client_registry.py`
lines 151-172): derive the key from
`(provider, client_config, client_key, async_client)` and store the given
client instance under it, replacing any previous entry. -/
def register_client (hashFn : String → Int) (provider : String)
    (client : Nat) (clientConfig : Option (List (String × String)))
    (clientKey : Option String) (asyncClient : Bool) (st : RegistryState) :
    RegistryState :=
  ⟨listSet st.registry
      (generateRegistryKey hashFn provider clientConfig clientKey asyncClient)
      client,
   st.nextId⟩

/-- Model of `ProviderClientRegistry.unregister_client` (lines 174-202):
derive the key from `(provider, config, client_key, async)` and delete the
entry if present. -/
def unregister_client (hashFn : String → Int) (provider : String)
    (config : Option (List (String × String))) (clientKey : Option String)
    (asyncClient : Bool) (st : RegistryState) : RegistryState :=
  let key := generateRegistryKey hashFn provider config clientKey asyncClient
  ⟨st.registry.eraseP (fun p => p.1 == key), st.nextId⟩

/-- Model of `ProviderClientRegistry.clear_cache`: empty the map. -/
def clear_cache (st : RegistryState) : RegistryState := ⟨[], st.nextId⟩

/-- Keys of `_PROVIDER_ADAPTER_MAP` (`_mappings.py` lines 26-29). -/
def providerAdapterMap : List String := ["openai", "anthropic"]

/-- Model of `AdapterRegistry.get_adapter` (`_mappings.py` lines 57-71):
return the cached adapter if present; else a supported provider lazily
constructs and caches one (fresh identity), and an unsupported provider's
`KeyError` is turned into `ProviderNotSupportedError`. -/
def get_adapter (provider : String) (cache : List (String × Nat))
    (nextId : Nat) : Except PyErr (Nat × List (String × Nat) × Nat) :=
  match cache.lookup provider with
  | some a => .ok (a, cache, nextId)
  | none =>
      if provider ∈ providerAdapterMap then
        .ok (nextId, listSet cache provider nextId, nextId + 1)
      else .error (.providerNotSupportedError provider)

/-- Outcome of `BaseProviderClient.__init__`: the resulting `self.client`
(or the propagated auth error), the class-level `_client_cache` after the
call, and the names of the auth strategies invoked. -/
structure InitResult where
  client : Except PyErr Nat
  classCache : List (String × Nat)
  authTrace : List String

/-- Model of `BaseProviderClient.__init__` (`_base_client.py` lines
161-183).  `cache_client = self._config.get("cache_client", True)` is
`cacheClientField.getD true`; the cache key is `self.__class__`, modelled by
the class name; a cache hit returns the cached native handle with no
authentication; otherwise `_get_or_authenticate_client` runs and its result
is stored back only when `cache_client` is truthy. -/
def clientInit (className provider : String)
    (strategies : List (String × Except PyErr Nat))
    (cacheClientField : Option Bool) (authMethodConfig : Option String)
    (cache : List (String × Nat)) : InitResult :=
  let cacheClient := cacheClientField.getD true
  match (if cacheClient then cache.lookup className else none) with
  | some c => ⟨.ok c, cache, []⟩
  | none =>
      let a := getOrAuthenticateClient provider strategies authMethodConfig
      match a.result with
      | .ok c =>
          ⟨.ok c, if cacheClient then listSet cache className c else cache,
           a.attempted⟩
      | .error e => ⟨.error e, cache, a.attempted⟩

/-- Three-state value of one optional request field: the `NOT_GIVEN`
sentinel default, an explicit `None`, or an explicit value (rendered as a
string). -/
inductive FieldValue : Type where
  | notGiven : FieldValue
  | null : FieldValue
  | val : String → FieldValue
deriving DecidableEq

/-- One field of an `AstralCompletionRequest` as pydantic tracks it: its
name, whether the caller explicitly supplied it (membership in
`model_fields_set`, which `model_dump(exclude_unset=True)` keys on), and its
current value. -/
structure RequestField where
  name : String
  setByCaller : Bool
  value : FieldValue
deriving DecidableEq

/-- Model of `AstralCompletionRequest.to_provider_dict` (`_request.py` lines
339-346): `model_dump(exclude_unset=True)` keeps exactly the
caller-supplied fields, then the comprehension drops every entry whose
value is the `NOT_GIVEN` sentinel. -/
def to_provider_dict (fields : List RequestField) : List (String × FieldValue) :=
  let raw := fields.filter fun f => f.setByCaller
  (raw.filter fun f => decide (f.value ≠ FieldValue.notGiven)).map
    fun f => (f.name, f.value)

/-- C1: with a pinned strategy that raises `e`, the engine re-raises exactly
`e`: `raise e` at `_base_client.py` line 273 hands back the strategy's own
exception value, not a wrapper around it. -/
theorem pinned_single_strategy_reraises_original
    (provider name : String) (e : PyErr)
    (strategies : List (String × Except PyErr Nat))
    (h : strategies.lookup name = some (.error e)) :
    (getOrAuthenticateClient provider strategies (some name)).result =
      .error e := by
  simp [getOrAuthenticateClient, h, runCandidates]

/-- Witness for C1 at a concrete one-strategy table. -/
theorem pinned_single_strategy_reraises_original_witness :
    ([("api_key", Except.error (PyErr.exc 7))] :
        List (String × Except PyErr Nat)).lookup "api_key" =
      some (.error (.exc 7)) ∧
    (getOrAuthenticateClient "deepseek"
        [("api_key", Except.error (PyErr.exc 7))] (some "api_key")).result =
      .error (.exc 7) :=
  ⟨rfl, pinned_single_strategy_reraises_original "deepseek" "api_key"
    (.exc 7) [("api_key", Except.error (PyErr.exc 7))] rfl⟩

/-- C7: a pinned auth method name missing from the strategy table fails at
once with `AstralUnknownAuthMethodError` naming the offending value and the
supported method names, and no strategy is invoked (`attempted = []`). -/
theorem unknown_pinned_auth_method_fails_fast
    (provider name : String)
    (strategies : List (String × Except PyErr Nat))
    (h : strategies.lookup name = none) :
    getOrAuthenticateClient provider strategies (some name) =
      ⟨.error (.astralUnknownAuthMethodError name provider
          (strategies.map Prod.fst)), [], []⟩ := by
  simp [getOrAuthenticateClient, h]

/-- Witness for C7: pinning `"oauth"` against a table holding only
`"api_key"`. -/
theorem unknown_pinned_auth_method_fails_fast_witness :
    ([("api_key", Except.ok 5)] :
        List (String × Except PyErr Nat)).lookup "oauth" = none ∧
    getOrAuthenticateClient "deepseek" [("api_key", Except.ok 5)]
        (some "oauth") =
      ⟨.error (.astralUnknownAuthMethodError "oauth" "deepseek" ["api_key"]),
       [], []⟩ :=
  ⟨rfl, unknown_pinned_auth_method_fails_fast "deepseek" "oauth"
    [("api_key", Except.ok 5)] rfl⟩

/-- Counterexample to C2 as stated: with an empty strategy table and no
pinned method, zero strategies are attempted, yet the loop falls through and
raises the aggregated `MultipleAstralAuthenticationErrors` (with an empty
error list) — the claim says it is never raised when zero strategies were
attempted. -/
theorem aggregated_error_with_zero_strategies :
    (getOrAuthenticateClient "deepseek" [] none).result =
      .error (.multipleAstralAuthenticationErrors "deepseek" []) ∧
    (getOrAuthenticateClient "deepseek" [] none).attempted = [] :=
  ⟨rfl, rfl⟩

/-- Generalized loop invariant: if every candidate fails (raises or returns a
falsy handle), and in the single-candidate regime no candidate raises, the
loop exhausts the list and raises the aggregated error carrying the incoming
`errors` followed by the pairs of exactly the raising candidates, in order. -/
theorem runCandidates_all_fail (provider : String) (isSingle : Bool)
    (candidates : List (String × Except PyErr Nat))
    (errors : List (String × PyErr))
    (hnt : ∀ p ∈ candidates, p.2 = Except.ok 0 ∨ ∃ e, p.2 = Except.error e)
    (hs : isSingle = true → ∀ p ∈ candidates, p.2 = Except.ok 0) :
    runCandidates provider isSingle candidates errors =
      ⟨.error (.multipleAstralAuthenticationErrors provider
          (errors ++ collectErrors candidates)),
       candidates.map Prod.fst, errors ++ collectErrors candidates⟩ := by
  induction candidates generalizing errors with
  | nil => simp [runCandidates, collectErrors]
  | cons head rest ih =>
    obtain ⟨name, outcome⟩ := head
    rcases hnt _ (List.mem_cons_self _ _) with h0 | ⟨e, he⟩
    · simp only at h0
      subst h0
      rw [runCandidates]
      simp only [ne_eq, not_true_eq_false, reduceIte]
      rw [ih errors (fun p hp => hnt p (List.mem_cons_of_mem _ hp))
        (fun h1 p hp => hs h1 p (List.mem_cons_of_mem _ hp))]
      simp [collectErrors]
    · simp only at he
      subst he
      have hsingle : isSingle = false := by
        rcases Bool.eq_false_or_eq_true isSingle with h1 | h1
        · exact absurd (hs h1 _ (List.mem_cons_self _ _)) (by simp)
        · exact h1
      subst hsingle
      rw [runCandidates]
      simp only [Bool.false_eq_true, reduceIte]
      rw [ih (errors ++ [(name, e)])
        (fun p hp => hnt p (List.mem_cons_of_mem _ hp))
        (fun h1 => by simp at h1)]
      simp [collectErrors, List.append_assoc]

/-- C2 (amended): with no pinned method, whenever every candidate fails —
each raising or returning a falsy handle, and, if exactly one candidate
exists, that one returning a falsy handle rather than raising — the engine
raises the aggregated `MultipleAstralAuthenticationErrors` naming the
provider and carrying, in attempt order, the `(name, error)` pairs of
exactly the candidates that raised (possibly fewer than were attempted,
including none); all candidates are attempted. -/
theorem aggregated_error_exact_payload (provider : String)
    (candidates : List (String × Except PyErr Nat))
    (hnt : ∀ p ∈ candidates, p.2 = Except.ok 0 ∨ ∃ e, p.2 = Except.error e)
    (hs : candidates.length = 1 → ∀ p ∈ candidates, p.2 = Except.ok 0) :
    getOrAuthenticateClient provider candidates none =
      ⟨.error (.multipleAstralAuthenticationErrors provider
          (collectErrors candidates)),
       candidates.map Prod.fst, collectErrors candidates⟩ := by
  have := runCandidates_all_fail provider (candidates.length == 1)
    candidates [] hnt (fun h1 => hs (by simpa using h1))
  simpa [getOrAuthenticateClient] using this

/-- Witness for C2 (amended): two unpinned strategies both raising yield the
aggregated error with exactly both pairs in order. -/
theorem aggregated_error_exact_payload_witness :
    getOrAuthenticateClient "deepseek"
        [("s1", Except.error (PyErr.exc 1)), ("s2", Except.error (PyErr.exc 2))]
        none =
      ⟨.error (.multipleAstralAuthenticationErrors "deepseek"
          [("s1", .exc 1), ("s2", .exc 2)]),
       ["s1", "s2"], [("s1", .exc 1), ("s2", .exc 2)]⟩ := by
  have h := aggregated_error_exact_payload "deepseek"
    [("s1", Except.error (PyErr.exc 1)), ("s2", Except.error (PyErr.exc 2))]
    (by
      rintro p hp
      rcases List.mem_cons.mp hp with rfl | hp
      · exact Or.inr ⟨_, rfl⟩
      · rcases List.mem_cons.mp hp with rfl | hp
        · exact Or.inr ⟨_, rfl⟩
        · exact absurd hp (List.not_mem_nil _))
    (by intro h1; exact absurd h1 (by decide))
  simpa [collectErrors] using h

/-- Generalized loop invariant: candidates before the first truthy success
all fail, then the success returns its handle immediately; only the failing
prefix and the succeeding candidate are attempted, and the prefix's raised
errors stand recorded. -/
theorem runCandidates_first_success (provider : String) (isSingle : Bool)
    (pre post : List (String × Except PyErr Nat)) (name : String) (h : Nat)
    (errors : List (String × PyErr))
    (hh : h ≠ 0)
    (hpre : ∀ p ∈ pre, p.2 = Except.ok 0 ∨ ∃ e, p.2 = Except.error e)
    (hs : isSingle = true → ∀ p ∈ pre, p.2 = Except.ok 0) :
    runCandidates provider isSingle (pre ++ (name, Except.ok h) :: post)
        errors =
      ⟨.ok h, pre.map Prod.fst ++ [name], errors ++ collectErrors pre⟩ := by
  induction pre generalizing errors with
  | nil => simp [runCandidates, hh, collectErrors]
  | cons head rest ih =>
    obtain ⟨n0, outcome⟩ := head
    rcases hpre _ (List.mem_cons_self _ _) with h0 | ⟨e, he⟩
    · simp only at h0
      subst h0
      rw [List.cons_append, runCandidates]
      simp only [ne_eq, not_true_eq_false, reduceIte]
      rw [ih errors (fun p hp => hpre p (List.mem_cons_of_mem _ hp))
        (fun h1 p hp => hs h1 p (List.mem_cons_of_mem _ hp))]
      simp [collectErrors]
    · simp only at he
      subst he
      have hsingle : isSingle = false := by
        rcases Bool.eq_false_or_eq_true isSingle with h1 | h1
        · exact absurd (hs h1 _ (List.mem_cons_self _ _)) (by simp)
        · exact h1
      subst hsingle
      rw [List.cons_append, runCandidates]
      simp only [Bool.false_eq_true, reduceIte]
      rw [ih (errors ++ [(n0, e)])
        (fun p hp => hpre p (List.mem_cons_of_mem _ hp))
        (fun h1 => by simp at h1)]
      simp [collectErrors, List.append_assoc]

/-- C6: with no pinned method, strategies run in registration order and the
first one returning a truthy handle wins: the engine returns that handle at
once, no later strategy is invoked (`attempted` stops at the winner), and
the raised errors of the earlier strategies are recorded in the local
`errors` list but the call succeeds, surfacing none of them. -/
theorem fallback_first_success_short_circuits (provider : String)
    (pre post : List (String × Except PyErr Nat)) (name : String) (h : Nat)
    (hh : h ≠ 0)
    (hpre : ∀ p ∈ pre, p.2 = Except.ok 0 ∨ ∃ e, p.2 = Except.error e) :
    getOrAuthenticateClient provider (pre ++ (name, Except.ok h) :: post)
        none =
      ⟨.ok h, pre.map Prod.fst ++ [name], collectErrors pre⟩ := by
  have hs : ((pre ++ (name, Except.ok h) :: post).length == 1) = true →
      ∀ p ∈ pre, p.2 = Except.ok 0 := by
    intro h1 p hp
    have hlen : pre.length + (post.length + 1) = 1 := by
      simpa [List.length_append] using h1
    have : pre.length = 0 := by omega
    rw [List.length_eq_zero] at this
    subst this
    exact absurd hp (List.not_mem_nil _)
  have := runCandidates_first_success provider
    ((pre ++ (name, Except.ok h) :: post).length == 1) pre post name h []
    hh hpre hs
  simpa [getOrAuthenticateClient] using this

/-- Witness for C6: first strategy raises, second succeeds with handle 42;
the third is never invoked and the call returns 42. -/
theorem fallback_first_success_short_circuits_witness :
    getOrAuthenticateClient "deepseek"
        [("s1", Except.error (PyErr.exc 9)), ("s2", Except.ok 42),
         ("s3", Except.ok 3)] none =
      ⟨.ok 42, ["s1", "s2"], [("s1", .exc 9)]⟩ := by
  have h := fallback_first_success_short_circuits "deepseek"
    [("s1", Except.error (PyErr.exc 9))] [("s3", Except.ok 3)] "s2" 42
    (by decide)
    (by
      rintro p hp
      rcases List.mem_cons.mp hp with rfl | hp
      · exact Or.inr ⟨_, rfl⟩
      · exact absurd hp (List.not_mem_nil _))
  simpa [collectErrors] using h

/-- Sorting by key yields a strictly key-sorted list when the keys are
pairwise distinct. -/
theorem sortByKey_sorted_strict (cfg : List (String × String))
    (hnodup : (cfg.map Prod.fst).Nodup) :
    List.Sorted keyLt (sortByKey cfg) := by
  have hle : List.Sorted keyLe (sortByKey cfg) :=
    List.sorted_insertionSort keyLe cfg
  have hperm : (sortByKey cfg).Perm cfg := List.perm_insertionSort keyLe cfg
  have hnd : ((sortByKey cfg).map Prod.fst).Nodup :=
    ((hperm.map Prod.fst).nodup_iff).mpr hnodup
  have hne : (sortByKey cfg).Pairwise fun a b => a.1 ≠ b.1 :=
    List.pairwise_map.mp hnd
  exact (hle.and hne).imp fun h => lt_of_le_of_ne h.1 h.2

/-- Configs equal as mappings (permutations with distinct keys) canonicalize
to the same sorted list. -/
theorem sortByKey_perm_eq (cfg₁ cfg₂ : List (String × String))
    (hperm : cfg₁.Perm cfg₂) (hnodup : (cfg₁.map Prod.fst).Nodup) :
    sortByKey cfg₁ = sortByKey cfg₂ := by
  have hnodup₂ : (cfg₂.map Prod.fst).Nodup :=
    ((hperm.map Prod.fst).nodup_iff).mp hnodup
  exact List.eq_of_perm_of_sorted
    ((List.perm_insertionSort keyLe cfg₁).trans
      (hperm.trans (List.perm_insertionSort keyLe cfg₂).symm))
    (sortByKey_sorted_strict cfg₁ hnodup)
    (sortByKey_sorted_strict cfg₂ hnodup₂)

/-- C5: the registry key is a deterministic function of its inputs: a truthy
explicit `client_key` is the base key verbatim; else a supplied config gives
`provider + "_" + hash(canonical serialization)`; else the bare provider
name; configs equal as mappings (any insertion order, keys distinct) derive
the same key; and `".async"` is appended exactly when the asynchronous
variant is requested. -/
theorem generate_registry_key_spec (hashFn : String → Int) :
    (∀ (p k : String) (cfg : Option (List (String × String))) (a : Bool),
        k ≠ "" →
        generateRegistryKey hashFn p cfg (some k) a =
          if a then k ++ ".async" else k) ∧
    (∀ (p : String) (cfg : List (String × String)) (a : Bool),
        generateRegistryKey hashFn p (some cfg) none a =
          if a then
            p ++ "_" ++ toString (hashFn (canonicalConfigString cfg)) ++
              ".async"
          else p ++ "_" ++ toString (hashFn (canonicalConfigString cfg))) ∧
    (∀ (p : String) (a : Bool),
        generateRegistryKey hashFn p none none a =
          if a then p ++ ".async" else p) ∧
    (∀ (p : String) (cfg₁ cfg₂ : List (String × String))
        (ck : Option String) (a : Bool),
        cfg₁.Perm cfg₂ → (cfg₁.map Prod.fst).Nodup →
        generateRegistryKey hashFn p (some cfg₁) ck a =
          generateRegistryKey hashFn p (some cfg₂) ck a) := by
  refine ⟨?_, ?_, ?_, ?_⟩
  · intro p k cfg a hk
    simp [generateRegistryKey, hk]
  · intro p cfg a
    simp [generateRegistryKey]
  · intro p a
    simp [generateRegistryKey]
  · intro p cfg₁ cfg₂ ck a hperm hnodup
    simp [generateRegistryKey, canonicalConfigString,
      sortByKey_perm_eq cfg₁ cfg₂ hperm hnodup]

/-- Witness for C5 at concrete inputs, including two key-permuted configs. -/
theorem generate_registry_key_spec_witness :
    generateRegistryKey hashLen "openai" none (some "mykey") true =
      (if true then "mykey" ++ ".async" else "mykey") ∧
    generateRegistryKey hashLen "openai"
        (some [("api_key", "k")]) none false =
      (if false then
          "openai" ++ "_" ++
            toString (hashLen (canonicalConfigString [("api_key", "k")])) ++
            ".async"
        else
          "openai" ++ "_" ++
            toString (hashLen (canonicalConfigString [("api_key", "k")]))) ∧
    generateRegistryKey hashLen "openai" none none true =
      (if true then "openai" ++ ".async" else "openai") ∧
    generateRegistryKey hashLen "openai"
        (some [("b", "2"), ("a", "1")]) none false =
      generateRegistryKey hashLen "openai"
        (some [("a", "1"), ("b", "2")]) none false :=
  ⟨(generate_registry_key_spec hashLen).1 "openai" "mykey" none true
      (by decide),
   (generate_registry_key_spec hashLen).2.1 "openai" [("api_key", "k")] false,
   (generate_registry_key_spec hashLen).2.2.1 "openai" true,
   (generate_registry_key_spec hashLen).2.2.2 "openai"
      [("b", "2"), ("a", "1")] [("a", "1"), ("b", "2")] none false
      (by decide) (by decide)⟩

/-- C3: evaluation of the faithful model at the failing input.  A
constructing `get_client` call for `"deepseek"` (here: no params, empty
registry, both variants) derives the key and misses the cache, and then the
call `client_class(config, async_client=async_client)` raises `TypeError` —
`DeepSeekProviderClient.__init__` accepts only `config` — so no client is
ever returned, nothing is stored, and a repeat call fails the same way: the
claimed idempotent caching cannot begin for this provider. -/
theorem deepseek_get_client_always_type_error :
    get_client hashLen ctorAuthOk "deepseek" none false ⟨[], 0⟩ =
      .error deepseekCtorTypeError ∧
    get_client hashLen ctorAuthOk "deepseek" none true ⟨[], 0⟩ =
      .error deepseekCtorTypeError :=
  ⟨rfl, rfl⟩

/-- C8: a provider absent from the supported-provider maps is rejected by
both registries with `ProviderNotSupportedError` carrying the offending
provider name — `get_client` when nothing is cached under the derived key,
`get_adapter` when no adapter is registered for the provider. -/
theorem unsupported_provider_rejected
    (hashFn : String → Int) (ctorOutcome : String → Except PyErr Unit)
    (provider : String)
    (astral : Option AstralClientParams) (asyncClient : Bool)
    (st : RegistryState) (key : String)
    (adapterCache : List (String × Nat)) (nextAdapterId : Nat)
    (hkey : deriveGetClientKey hashFn provider astral asyncClient = .ok key)
    (hmiss : st.registry.lookup key = none)
    (hprov : provider ∉ providerClientMap)
    (haprov : provider ∉ providerAdapterMap)
    (hamiss : adapterCache.lookup provider = none) :
    get_client hashFn ctorOutcome provider astral asyncClient st =
      .error (.providerNotSupportedError provider) ∧
    get_adapter provider adapterCache nextAdapterId =
      .error (.providerNotSupportedError provider) := by
  constructor
  · simp [get_client, hkey, hmiss, hprov]
  · simp [get_adapter, hamiss, haprov]

/-- Witness for C8 at the provider name `"unknown"` on empty registries. -/
theorem unsupported_provider_rejected_witness :
    get_client hashLen ctorAuthOk "unknown" none false ⟨[], 0⟩ =
      .error (.providerNotSupportedError "unknown") ∧
    get_adapter "unknown" [] 0 =
      .error (.providerNotSupportedError "unknown") :=
  unsupported_provider_rejected hashLen ctorAuthOk "unknown" none false
    ⟨[], 0⟩ "unknown" [] 0 rfl rfl (by decide) (by decide) rfl

/-- Counterexample to C4 as stated: with a config whose `cache_client` is
false, after `register_client` stored instance 7 under the key derived from
that very config, `get_client` performs its registry-cache lookup, finds the
entry, and returns the cached instance 7 with the state untouched — it
neither skipped the lookup nor constructed a fresh client (the identity
counter stays at 8 and no constructor runs). -/
theorem get_client_consults_cache_despite_cache_client_false :
    get_client hashLen ctorAuthOk "deepseek"
        (some ⟨false, none, some [("cache_client", "false")]⟩) false
        (register_client hashLen "deepseek" 7
          (some [("cache_client", "false")]) none false ⟨[], 8⟩) =
      .ok (7,
        register_client hashLen "deepseek" 7
          (some [("cache_client", "false")]) none false ⟨[], 8⟩) :=
  rfl

/-- C4 (amended): the `cache_client` flag governs only the class-level cache
inside `BaseProviderClient.__init__` — with it set false, `__init__` still
derives a cache key (the class), skips the class-cache lookup, always runs
`_get_or_authenticate_client` afresh, and leaves the class-level
`_client_cache` unchanged; `ProviderClientRegistry.get_client`, by
contrast, ignores the flag entirely: it still performs its registry-cache
lookup and returns the cached entry (constructing nothing, state untouched)
whenever one exists under the derived key. -/
theorem cache_client_false_scope :
    (∀ (className provider : String)
        (strategies : List (String × Except PyErr Nat))
        (authMethodConfig : Option String) (cache : List (String × Nat)),
        clientInit className provider strategies (some false)
            authMethodConfig cache =
          ⟨(getOrAuthenticateClient provider strategies
              authMethodConfig).result,
           cache,
           (getOrAuthenticateClient provider strategies
              authMethodConfig).attempted⟩) ∧
    (∀ (hashFn : String → Int) (ctorOutcome : String → Except PyErr Unit)
        (provider : String) (astral : Option AstralClientParams)
        (asyncClient : Bool) (st : RegistryState) (key : String) (c : Nat),
        deriveGetClientKey hashFn provider astral asyncClient = .ok key →
        st.registry.lookup key = some c →
        get_client hashFn ctorOutcome provider astral asyncClient st =
          .ok (c, st)) := by
  constructor
  · intro className provider strategies authMethodConfig cache
    cases h : (getOrAuthenticateClient provider strategies
        authMethodConfig).result <;>
      simp [clientInit, h]
  · intro hashFn ctorOutcome provider astral asyncClient st key c hkey hhit
    simp [get_client, hkey, hhit]

/-- Witness for C4 (amended): a concrete no-hit-possible init with
`cache_client = False` over a warm class cache, and a concrete registry call
(a cached entry under the provider's default key) that returns the cached
instance unchanged. -/
theorem cache_client_false_scope_witness :
    clientInit "DeepSeekProviderClient" "deepseek"
        [("api_key", Except.ok 42)] (some false) none
        [("DeepSeekProviderClient", 5)] =
      ⟨(getOrAuthenticateClient "deepseek" [("api_key", Except.ok 42)]
          none).result,
       [("DeepSeekProviderClient", 5)],
       (getOrAuthenticateClient "deepseek" [("api_key", Except.ok 42)]
          none).attempted⟩ ∧
    get_client hashLen ctorAuthOk "deepseek" none false
        ⟨[("deepseek", 3)], 5⟩ =
      .ok (3, ⟨[("deepseek", 3)], 5⟩) :=
  ⟨cache_client_false_scope.1 "DeepSeekProviderClient" "deepseek"
      [("api_key", Except.ok 42)] none [("DeepSeekProviderClient", 5)],
   cache_client_false_scope.2 hashLen ctorAuthOk "deepseek" none false
      ⟨[("deepseek", 3)], 5⟩ "deepseek" 3 rfl rfl⟩

/-- C10: the class-level `_client_cache` is keyed by the class alone —
whenever `cache_client` is enabled (set true, or absent and defaulting to
true) and the cache holds an entry for the class, a fresh construction of
the same class reuses the cached native handle and invokes no auth
strategy, whatever the rest of the configuration (strategies, pinned
method) says. -/
theorem class_cache_ignores_config
    (className provider : String) (c : Nat)
    (strategies : List (String × Except PyErr Nat))
    (cacheClientField : Option Bool) (authMethodConfig : Option String)
    (cache : List (String × Nat))
    (hcache : cache.lookup className = some c)
    (hflag : cacheClientField.getD true = true) :
    clientInit className provider strategies cacheClientField
        authMethodConfig cache = ⟨.ok c, cache, []⟩ := by
  simp [clientInit, hflag, hcache]

/-- Witness for C10: a second construction with a different pinned method
and different strategies still reuses handle 99 and runs nothing. -/
theorem class_cache_ignores_config_witness :
    ([("DeepSeekProviderClient", 99)] : List (String × Nat)).lookup
        "DeepSeekProviderClient" = some 99 ∧
    clientInit "DeepSeekProviderClient" "deepseek"
        [("other_method", Except.error (PyErr.exc 3))] none
        (some "other_method") [("DeepSeekProviderClient", 99)] =
      ⟨.ok 99, [("DeepSeekProviderClient", 99)], []⟩ :=
  ⟨rfl, class_cache_ignores_config "DeepSeekProviderClient" "deepseek" 99
    [("other_method", Except.error (PyErr.exc 3))] none
    (some "other_method") [("DeepSeekProviderClient", 99)] rfl rfl⟩

/-- Counterexample to C9 as stated: a field the caller explicitly set to the
`NOT_GIVEN` sentinel is explicitly set, yet `to_provider_dict` drops it —
the claim demands every explicitly set field appear with its set value. -/
theorem set_not_given_field_dropped :
    (⟨"temperature", true, .notGiven⟩ : RequestField).setByCaller = true ∧
    ("temperature", FieldValue.notGiven) ∉
      to_provider_dict [⟨"temperature", true, .notGiven⟩] := by
  refine ⟨rfl, ?_⟩
  decide

/-- C9 (amended): for a request with pairwise-distinct field names, the
dictionary has no key for any field the caller left unset and no entry
valued by the `NOT_GIVEN` sentinel, and every field the caller explicitly
set to anything other than the sentinel — explicit `None` included —
appears with its set value. -/
theorem to_provider_dict_spec (fields : List RequestField)
    (hnames : (fields.map RequestField.name).Nodup) :
    (∀ f ∈ fields, f.setByCaller = false →
        ∀ v, (f.name, v) ∉ to_provider_dict fields) ∧
    (∀ kv ∈ to_provider_dict fields, kv.2 ≠ FieldValue.notGiven) ∧
    (∀ f ∈ fields, f.setByCaller = true → f.value ≠ FieldValue.notGiven →
        (f.name, f.value) ∈ to_provider_dict fields) := by
  refine ⟨?_, ?_, ?_⟩
  · intro f hf hset v hv
    simp only [to_provider_dict, List.mem_map, List.mem_filter,
      decide_eq_true_eq] at hv
    obtain ⟨g, ⟨⟨hg, hgset⟩, _⟩, heq⟩ := hv
    have hname : g.name = f.name := congrArg Prod.fst heq
    have : g = f := List.inj_on_of_nodup_map hnames hg hf hname
    subst this
    rw [hset] at hgset
    exact Bool.false_ne_true hgset
  · intro kv hkv
    simp only [to_provider_dict, List.mem_map, List.mem_filter,
      decide_eq_true_eq] at hkv
    obtain ⟨g, ⟨⟨_, _⟩, hng⟩, heq⟩ := hkv
    rw [← heq]
    exact hng
  · intro f hf h1 h2
    simp only [to_provider_dict, List.mem_map, List.mem_filter,
      decide_eq_true_eq]
    exact ⟨f, ⟨⟨hf, h1⟩, h2⟩, rfl⟩

/-- Witness for C9 (amended) on a request with an unset field, a field set
to an explicit `None`, and a field set to a value. -/
theorem to_provider_dict_spec_witness :
    ("frequency_penalty", FieldValue.null) ∉
      to_provider_dict
        [⟨"model", true, .val "gpt-4o"⟩,
         ⟨"frequency_penalty", false, .notGiven⟩,
         ⟨"stop", true, .null⟩] ∧
    ("stop", FieldValue.null) ∈
      to_provider_dict
        [⟨"model", true, .val "gpt-4o"⟩,
         ⟨"frequency_penalty", false, .notGiven⟩,
         ⟨"stop", true, .null⟩] ∧
    ("model", FieldValue.val "gpt-4o") ∈
      to_provider_dict
        [⟨"model", true, .val "gpt-4o"⟩,
         ⟨"frequency_penalty", false, .notGiven⟩,
         ⟨"stop", true, .null⟩] :=
  ⟨(to_provider_dict_spec
      [⟨"model", true, .val "gpt-4o"⟩,
       ⟨"frequency_penalty", false, .notGiven⟩,
       ⟨"stop", true, .null⟩] (by decide)).1
      ⟨"frequency_penalty", false, .notGiven⟩ (by decide) rfl
      FieldValue.null,
   (to_provider_dict_spec
      [⟨"model", true, .val "gpt-4o"⟩,
       ⟨"frequency_penalty", false, .notGiven⟩,
       ⟨"stop", true, .null⟩] (by decide)).2.2
      ⟨"stop", true, .null⟩ (by decide) rfl (by decide),
   (to_provider_dict_spec
      [⟨"model", true, .val "gpt-4o"⟩,
       ⟨"frequency_penalty", false, .notGiven⟩,
       ⟨"stop", true, .null⟩] (by decide)).2.2
      ⟨"model", true, .val "gpt-4o"⟩ (by decide) rfl (by decide)⟩

end AstralAI
